import Mathlib

/-!
Shallow embedding of the OBS-TV-Animator media core (src/app.py).

The embedding models the pure content of the Flask/Socket.IO handlers and of
the OBS WebSocket client: the filesystem directories become explicit lists of
file names, the persisted JSON records become explicit datatypes, and each
handler becomes a function from the relevant inputs and stored state to the
new stored state plus the messages it emits (unicast to the requester versus
broadcast to all connections).
-/

/-- Codepoint-wise lowercasing, modelling Python str.lower for the ASCII
names used by the application. -/
def pyLower (s : String) : String := ⟨s.data.map Char.toLower⟩

/-- Whitespace stripping at both ends, modelling Python str.strip. -/
def pyStrip (s : String) : String :=
  ⟨((s.data.dropWhile Char.isWhitespace).reverse.dropWhile Char.isWhitespace).reverse⟩

/-- Boolean test that the first character list starts the second one. -/
def listStartsWith : List Char → List Char → Bool
  | [], _ => true
  | _ :: _, [] => false
  | p :: ps, c :: cs => p == c && listStartsWith ps cs

/-- Boolean test that string s ends with pat, modelling a glob of the
form *pat over file names. -/
def strEndsWith (s pat : String) : Bool :=
  listStartsWith pat.data.reverse s.data.reverse

/-- Index of the last dot in a character list, modelling str.rfind of a dot. -/
def lastDotIdxAux : List Char → Nat → Option Nat → Option Nat
  | [], _, acc => acc
  | c :: cs, i, acc => lastDotIdxAux cs (i + 1) (if c = '.' then some i else acc)

/-- Wrapper for lastDotIdxAux starting at position zero. -/
def lastDotIdx (cs : List Char) : Option Nat := lastDotIdxAux cs 0 none

/-- Extension of a file name, modelling pathlib Path(filename).suffix: the
part from the last dot, provided that dot is neither the first nor the last
character; otherwise the empty string. Identifiers in this application are
plain file names without directory separators. -/
def pySuffix (s : String) : String :=
  let cs := s.data
  match lastDotIdx cs with
  | none => ""
  | some i => if 0 < i ∧ i < cs.length - 1 then ⟨cs.drop i⟩ else ""

/-- Supported HTML extensions, from HTML_EXTENSIONS in src/app.py. -/
def HTML_EXTENSIONS : List String := [".html", ".htm"]

/-- Supported video extensions, from VIDEO_EXTENSIONS in src/app.py. -/
def VIDEO_EXTENSIONS : List String := [".mp4", ".webm", ".ogg", ".avi", ".mov", ".mkv"]

/-- Python is_video_file: the lowercased suffix is a video extension. -/
def is_video_file (filename : String) : Bool :=
  decide (pyLower (pySuffix filename) ∈ VIDEO_EXTENSIONS)

/-- Python is_html_file: the lowercased suffix is an HTML extension. -/
def is_html_file (filename : String) : Bool :=
  decide (pyLower (pySuffix filename) ∈ HTML_EXTENSIONS)

/-- Lexicographic codepoint order on strings, the order Python sorted uses on
str values, expressed through the list order on the underlying characters. -/
def pyStrLe (a b : String) : Prop := a.data ≤ b.data

instance pyStrLeDecidable : DecidableRel pyStrLe := fun a b => by
  unfold pyStrLe; infer_instance

instance pyStrLeTotal : IsTotal String pyStrLe := ⟨fun a b => le_total a.data b.data⟩

instance pyStrLeTrans : IsTrans String pyStrLe := ⟨fun _ _ _ h h2 => le_trans h h2⟩

/-- Python sorted on a list of strings. -/
def pysorted (l : List String) : List String := List.insertionSort pyStrLe l

/-- The two watched media directories, each as the list of file names it
contains. A directory that does not exist is the empty list, matching the
source's treatment of a missing directory as an empty listing. -/
structure Catalog where
  animationsDir : List String
  videosDir : List String
  deriving DecidableEq

/-- Python get_animation_files: sorted names in the animations directory
matching the *.html glob. -/
def get_animation_files (c : Catalog) : List String :=
  pysorted (c.animationsDir.filter (fun f => strEndsWith f ".html"))

/-- Names in dir matching a *ext glob for each extension in turn, mirroring
the per-extension glob loop of get_video_files. -/
def globEachExt (dir : List String) : List String → List String
  | [] => []
  | e :: exts => dir.filter (fun f => strEndsWith f e) ++ globEachExt dir exts

/-- Python get_video_files: sorted names in the videos directory matching a
*ext glob for some video extension. -/
def get_video_files (c : Catalog) : List String :=
  pysorted (globEachExt c.videosDir VIDEO_EXTENSIONS)

/-- Python get_all_media_files: the concatenation of the animation and video
listings, sorted again as one list. -/
def get_all_media_files (c : Catalog) : List String :=
  pysorted (get_animation_files c ++ get_video_files c)

/-- Kind of a found media file, the second component returned by
find_media_file. -/
inductive MediaType where
  | animation
  | video
  deriving DecidableEq

/-- Python find_media_file: look in the animations directory first, then the
videos directory; none when the file exists in neither. -/
def find_media_file (c : Catalog) (filename : String) : Option MediaType :=
  if filename ∈ c.animationsDir then some .animation
  else if filename ∈ c.videosDir then some .video
  else none

/-- String form of a media type as used in the JSON payloads. -/
def media_type_str : MediaType → String
  | .animation => "animation"
  | .video => "video"

example : pysorted ["b.html", "a.mp4"] = ["a.mp4", "b.html"] := by decide

example : is_video_file "clip.MP4" = true := by decide

example : is_html_file "anim1.html" = true := by decide

example : pySuffix "a.tar.gz" = ".gz" := by decide

example : strEndsWith "a.html" ".html" = true := by decide

example : get_all_media_files ⟨["b.html"], ["a.mp4"]⟩ = ["a.mp4", "b.html"] := by decide

/-- Parsed content of data/state.json. The current_animation field is an
option of an option: the outer layer records whether the key is present in
the JSON object at all, the inner layer whether its value is null. -/
structure StateRec where
  current_animation : Option (Option String)
  deriving DecidableEq

/-- Content of the state file on disk: absent (FileNotFoundError on open),
unparseable (JSONDecodeError), or a parsed record. -/
inductive StoredState where
  | absent
  | corrupt
  | valid (rec : StateRec)
  deriving DecidableEq

/-- Default state written by load_state when the file is absent or invalid. -/
def default_state : StateRec := ⟨some (some "anim1.html")⟩

/-- Python save_state: overwrite the state file with the given record. -/
def save_state (state : StateRec) : StoredState := .valid state

/-- Python load_state: return the parsed record, or on a missing or invalid
file write and return the default state. The second component is the state
file content after the call. -/
def load_state : StoredState → StateRec × StoredState
  | .valid rec => (rec, .valid rec)
  | _ => (default_state, save_state default_state)

/-- Socket.IO messages emitted by the handlers, one constructor per event
type with its payload fields. In animation_changed the previous_animation
field is an option of an option: the outer layer records whether the key is
present in the payload at all (the HTTP trigger omits it, the WebSocket
trigger includes it), the inner layer whether its value is null. -/
inductive Msg where
  | errorMsg (message : String) (available_media : Option (List String))
  | infoMsg (message : String)
  | animationChanged (previous_animation : Option (Option String))
      (current_animation : String) (media_type : String)
      (message : String) (refresh_page : Bool)
  | pageRefresh (reason : String) (new_media : String) (media_type : String)
  | videoControlMsg (action : String) (value : Option Int) (message : String)
  deriving DecidableEq

/-- An outbound emission: either to the requesting connection alone (Flask
SocketIO emit) or to every connection (socketio.emit broadcast). -/
inductive Out where
  | unicast (m : Msg)
  | broadcast (m : Msg)
  deriving DecidableEq

/-- HTTP response of the POST /trigger route. -/
inductive TriggerResponse where
  | badRequest (error : String)
  | notFound (available_media available_animations available_videos : List String)
  | ok (current_animation : String) (media_type : String)
  deriving DecidableEq

/-- Python trigger (POST /trigger). The body argument is none for an invalid
JSON payload, and otherwise carries the animation field of the payload: none
when the key is absent, otherwise its string value (the empty string is falsy
in Python and is treated like a missing field). -/
def trigger (c : Catalog) (st : StoredState) (body : Option (Option String)) :
    StoredState × TriggerResponse × List Out :=
  match body with
  | none => (st, .badRequest "Invalid JSON payload", [])
  | some animField =>
    match animField with
    | none => (st, .badRequest "Missing animation field in payload", [])
    | some media_file =>
      if media_file = "" then (st, .badRequest "Missing animation field in payload", [])
      else
        match find_media_file c media_file with
        | none =>
            (st, .notFound (get_all_media_files c) (get_animation_files c)
              (get_video_files c), [])
        | some ty =>
            let state := (load_state st).1
            let st1 := save_state { state with current_animation := some (some media_file) }
            let tys := media_type_str ty
            (st1, .ok media_file tys,
              [.broadcast (.animationChanged none media_file tys
                 ("Media changed to " ++ media_file ++ " (" ++ tys ++ ")") true),
               .broadcast (.pageRefresh "media_changed" media_file tys)])

/-- JSON body of the GET /animations response. -/
structure ListResponse where
  animations : List String
  videos : List String
  all_media : List String
  current_animation : Option String
  count : Nat
  animation_count : Nat
  video_count : Nat
  deriving DecidableEq

/-- Python list_animations (GET /animations). -/
def list_animations (c : Catalog) (st : StoredState) : StoredState × ListResponse :=
  let animations := get_animation_files c
  let videos := get_video_files c
  let all_media := get_all_media_files c
  let p := load_state st
  (p.2, ⟨animations, videos, all_media, p.1.current_animation.join,
    all_media.length, animations.length, videos.length⟩)

/-- Outcome of the GET / route: a media file served (with the media type the
route computed for it), the no-media 404 page, or the unhandled TypeError the
Python raises when the stored current_animation is null. -/
inductive IndexOutcome where
  | served (media : String) (media_type : Option MediaType)
  | noMedia
  | typeError
  deriving DecidableEq

/-- Shared tail of the index route once the current media name is known:
serve it if it exists, otherwise fall back to the first entry of the full
media listing, persisting the fallback choice. -/
def index_serve (c : Catalog) (st : StoredState) (state : StateRec)
    (current_media : String) : StoredState × IndexOutcome :=
  match find_media_file c current_media with
  | some ty => (st, .served current_media (some ty))
  | none =>
    match get_all_media_files c with
    | [] => (st, .noMedia)
    | x :: _ =>
        (save_state { state with current_animation := some (some x) },
         .served x (find_media_file c x))

/-- Python index (GET /): load the state, take current_animation with default
anim1.html when the key is absent (a present null value reaches
find_media_file as None and raises), then serve or fall back. -/
def index (c : Catalog) (st : StoredState) : StoredState × IndexOutcome :=
  let p := load_state st
  match p.1.current_animation with
  | some none => (p.2, .typeError)
  | none => index_serve c p.2 p.1 "anim1.html"
  | some (some m) => index_serve c p.2 p.1 m

example : (list_animations ⟨["b.html"], ["a.mp4"]⟩ .absent).2.all_media = ["a.mp4", "b.html"] := by
  decide

example : index ⟨["b.html"], ["a.mp4"]⟩ (.valid ⟨some (some "gone.html")⟩) =
    (.valid ⟨some (some "a.mp4")⟩, .served "a.mp4" (some .video)) := by decide

/-- First-match association lookup, modelling Python dict indexing for the
small scene-mapping dictionaries. -/
def pyDictGet (k : String) : List (String × String) → Option String
  | [] => none
  | (k2, v) :: rest => if k = k2 then some v else pyDictGet k rest

/-- Python handle_trigger_animation (WebSocket trigger_animation event). The
animation argument carries the animation field of the event data: none when
the key is absent, otherwise its value (the empty string is falsy in Python
and is treated like a missing field). -/
def handle_trigger_animation (c : Catalog) (st : StoredState)
    (animation : Option String) : StoredState × List Out :=
  match animation with
  | none => (st, [.unicast (.errorMsg "Missing animation field" none)])
  | some anim =>
    if anim = "" then (st, [.unicast (.errorMsg "Missing animation field" none)])
    else
      match find_media_file c anim with
      | none =>
          (st, [.unicast (.errorMsg ("Media file " ++ anim ++ " not found")
            (some (get_all_media_files c)))])
      | some ty =>
          let state := (load_state st).1
          let old := state.current_animation.join
          let st1 := save_state { state with current_animation := some (some anim) }
          let tys := media_type_str ty
          (st1,
            [.broadcast (.animationChanged (some old) anim tys
               ("Media changed to " ++ anim ++ " (" ++ tys ++ ")") true),
             .broadcast (.pageRefresh "media_changed" anim tys)])

/-- Built-in default scene-to-animation table of handle_scene_change. -/
def default_mapping : List (String × String) :=
  [("gaming", "anim1.html"),
   ("chatting", "anim2.html"),
   ("brb", "anim3.html"),
   ("be right back", "anim3.html"),
   ("starting soon", "anim1.html"),
   ("ending soon", "anim2.html")]

/-- Rendering of the scene name inside the no-mapping info message, where
Python interpolates None for a missing field. -/
def sceneNameRepr : Option String → String
  | none => "None"
  | some s => s

/-- Python handle_scene_change (WebSocket scene_change event): lowercase the
scene name, resolve through the inline mapping when one is provided and
matches, else through the built-in default table, and delegate any resolved
animation to handle_trigger_animation; otherwise unicast an info message. -/
def handle_scene_change (c : Catalog) (st : StoredState)
    (scene_name : Option String)
    (animation_mapping : Option (List (String × String))) : StoredState × List Out :=
  let sname := pyLower (scene_name.getD "")
  let mapping := animation_mapping.getD []
  let animation : Option String :=
    if mapping ≠ [] ∧ (pyDictGet sname mapping).isSome then pyDictGet sname mapping
    else pyDictGet sname default_mapping
  match animation with
  | some anim =>
    if anim = "" then
      (st, [.unicast (.infoMsg ("No animation mapping for scene " ++ sceneNameRepr scene_name))])
    else handle_trigger_animation c st (some anim)
  | none =>
      (st, [.unicast (.infoMsg ("No animation mapping for scene " ++ sceneNameRepr scene_name))])

/-- Python handle_video_control (WebSocket video_control event): require an
action, reject when the stored current media is a truthy non-video name, and
otherwise broadcast the action and value verbatim to all connections. -/
def handle_video_control (st : StoredState) (action : Option String)
    (value : Option Int) : StoredState × List Out :=
  match action with
  | none => (st, [.unicast (.errorMsg "Missing action for video control" none)])
  | some a =>
    if a = "" then (st, [.unicast (.errorMsg "Missing action for video control" none)])
    else
      let p := load_state st
      match p.1.current_animation.join with
      | some m =>
        if m ≠ "" ∧ is_video_file m = false then
          (p.2, [.unicast (.errorMsg "Current media is not a video file" none)])
        else
          (p.2, [.broadcast (.videoControlMsg a value ("Video control: " ++ a))])
      | none =>
          (p.2, [.broadcast (.videoControlMsg a value ("Video control: " ++ a))])

/-- Outcome of one call to OBSWebSocketClient._schedule_reconnect: either a
reconnection attempt scheduled after a delay, or the long cooldown. After the
cooldown the attempt counter is reset to zero and, when the client should be
connected and is not, _schedule_reconnect is called again; that inner call
necessarily takes the first branch and schedules attempt one, which the
cooldownThenRetry constructor records inline. -/
inductive SchedResult where
  | attempt (newAttempts delay : Nat)
  | cooldownThenRetry (cooldown newAttempts delay : Nat)
  | cooldownThenIdle (cooldown : Nat)
  deriving DecidableEq

/-- Python max_reconnect_attempts from OBSWebSocketClient.__init__. -/
def max_reconnect_attempts : Nat := 20

/-- Delay before reconnection attempt n, from _schedule_reconnect:
exponential backoff capped at thirty seconds. -/
def reconnect_delay (n : Nat) : Nat := min 30 (2 ^ n)

/-- Python OBSWebSocketClient._schedule_reconnect as a function of the flags
and the current attempt counter. -/
def schedule_reconnect (should_be_connected connected : Bool)
    (reconnect_attempts : Nat) : SchedResult :=
  if reconnect_attempts < max_reconnect_attempts then
    .attempt (reconnect_attempts + 1) (reconnect_delay (reconnect_attempts + 1))
  else if should_be_connected && !connected then
    .cooldownThenRetry 300 1 (reconnect_delay 1)
  else
    .cooldownThenIdle 300

/-- Result of reading data/config/obs_settings.json inside disconnect: the
file may be missing, raise on read or parse, or yield the effective enabled
flag (settings.get of enabled with default True). -/
inductive SettingsRead where
  | missing
  | unreadable
  | found (enabled : Bool)
  deriving DecidableEq

/-- Connection-intent flags of OBSWebSocketClient. -/
structure ClientFlags where
  connected : Bool
  should_be_connected : Bool
  auto_reconnect_enabled : Bool
  deriving DecidableEq

/-- Python OBSWebSocketClient.disconnect restricted to its effect on the
flags: connected is cleared unconditionally; a permanent non-forced
disconnect first consults the settings file and returns early - leaving the
reconnection intent flags untouched - when it reports the integration
enabled or cannot be read. -/
def disconnect (settings : SettingsRead) (permanent force : Bool)
    (st : ClientFlags) : ClientFlags :=
  let st1 := { st with connected := false }
  if permanent && !force then
    match settings with
    | .found true => st1
    | .unreadable => st1
    | .found false =>
        { st1 with should_be_connected := false, auto_reconnect_enabled := false }
    | .missing =>
        { st1 with should_be_connected := false, auto_reconnect_enabled := false }
  else st1

/-- Parsed content of data/config/obs_current_scene.json, with the two fields
the saver keeps plus any other fields present in the JSON object. -/
structure SceneRecord where
  current_scene : Option String
  last_updated : Option String
  extra : List (String × String)
  deriving DecidableEq

/-- Content of a scene-record file: unparseable or a parsed record. -/
inductive SceneFileContent where
  | corrupt
  | valid (rec : SceneRecord)
  deriving DecidableEq

/-- The scene-record file together with its temporary sibling used by the
atomic write. -/
structure SceneStore where
  mainFile : Option SceneFileContent
  tempFile : Option SceneFileContent
  deriving DecidableEq

/-- Python OBSWebSocketClient._save_current_scene_to_storage: reject an empty
scene name, read back only the current_scene and last_updated fields of the
existing record (every other field is dropped), overwrite those two with the
new scene name and timestamp, write the result to the temporary file and
rename it over the main file. -/
def save_current_scene_to_storage (store : SceneStore) (scene_name now : String) :
    Except String SceneStore :=
  if pyStrip scene_name = "" then .error "Scene name is empty after cleaning"
  else
    let clean := pyStrip scene_name
    let base : SceneRecord :=
      match store.mainFile with
      | some (.valid loaded) =>
          { current_scene := loaded.current_scene,
            last_updated := loaded.last_updated, extra := [] }
      | _ => { current_scene := none, last_updated := none, extra := [] }
    let scene_data := { base with current_scene := some clean, last_updated := some now }
    let withTemp : SceneStore := { store with tempFile := some (.valid scene_data) }
    .ok { mainFile := withTemp.tempFile, tempFile := none }

example : handle_scene_change ⟨["anim1.html"], []⟩ (.valid ⟨some none⟩) (some "Gaming") none =
    handle_trigger_animation ⟨["anim1.html"], []⟩ (.valid ⟨some none⟩) (some "anim1.html") := by
  decide

example : schedule_reconnect true false 20 = .cooldownThenRetry 300 1 2 := by decide

example : handle_video_control (.valid ⟨some (some "anim1.html")⟩) (some "seek") (some 30) =
    (.valid ⟨some (some "anim1.html")⟩,
     [.unicast (.errorMsg "Current media is not a video file" none)]) := by decide

/-- Modelled from the spec: the ordering the spec document promises for the
full media listing - the lexically sorted animation names followed by the
lexically sorted video names, concatenated in that order. Stated for
comparison with get_all_media_files, which the source computes instead. -/
def all_media_spec_order (c : Catalog) : List String :=
  get_animation_files c ++ get_video_files c

/-- C1: a trigger request for an identifier absent from both media
directories returns the 404 payload with the full listing and the per-kind
listings, emits nothing, and returns the persisted state file exactly as it
was before the request. -/
theorem c1_trigger_unknown_rejected (c : Catalog) (st : StoredState) (m : String)
    (hm : m ≠ "") (hfind : find_media_file c m = none) :
    trigger c st (some (some m)) =
      (st, .notFound (get_all_media_files c) (get_animation_files c)
        (get_video_files c), []) := by
  simp [trigger, hm, hfind]

/-- Witness for C1 at a concrete catalog and state. -/
theorem c1_trigger_unknown_rejected_witness :
    ("missing.mp4" : String) ≠ "" ∧
    find_media_file ⟨["anim1.html"], ["clip.mp4"]⟩ "missing.mp4" = none ∧
    trigger ⟨["anim1.html"], ["clip.mp4"]⟩ (.valid ⟨some (some "anim1.html")⟩)
        (some (some "missing.mp4")) =
      (.valid ⟨some (some "anim1.html")⟩,
       .notFound ["anim1.html", "clip.mp4"] ["anim1.html"] ["clip.mp4"], []) :=
  ⟨by decide, by decide,
    (c1_trigger_unknown_rejected ⟨["anim1.html"], ["clip.mp4"]⟩
      (.valid ⟨some (some "anim1.html")⟩) "missing.mp4" (by decide) (by decide)).trans
      (by decide)⟩

/-- Counterexample for C2: with animation b.html and video a.mp4 the route
reports the video before the animation, so the all_media listing is not the
sorted animations followed by the sorted videos. -/
theorem c2_all_media_counterexample :
    (list_animations ⟨["b.html"], ["a.mp4"]⟩ (.valid ⟨some (some "b.html")⟩)).2.all_media ≠
      all_media_spec_order ⟨["b.html"], ["a.mp4"]⟩ := by
  decide

/-- C2 amended: the all_media listing of GET /animations is the whole set of
animation and video names sorted lexically as one list - it is sorted, and it
is a permutation of the animations listing followed by the videos listing,
but does not in general keep all animations before all videos. -/
theorem c2_all_media_sorted_union (c : Catalog) (st : StoredState) :
    List.Sorted pyStrLe (list_animations c st).2.all_media ∧
    List.Perm (list_animations c st).2.all_media
      ((list_animations c st).2.animations ++ (list_animations c st).2.videos) := by
  constructor
  · exact List.sorted_insertionSort pyStrLe _
  · exact List.perm_insertionSort pyStrLe _

/-- Counterexample for C3: a record holding an extra scene_list field loses
that field when the observed scene is saved, so fields other than the scene
name and timestamp are not left untouched. -/
theorem c3_extra_fields_counterexample :
    save_current_scene_to_storage
        ⟨some (.valid ⟨some "Intro", some "t0", [("scene_list", "data")]⟩), none⟩
        "Gaming" "t1" =
      .ok ⟨some (.valid ⟨some "Gaming", some "t1", []⟩), none⟩ ∧
    [(("scene_list" : String), ("data" : String))] ≠ [] := by
  constructor
  · rfl
  · decide

/-- C3 amended: for every prior record content and non-empty scene name the
save is atomic - the full new record is written to the temporary file and
renamed over the original, leaving no temporary behind - but the written
record keeps only the current_scene and last_updated fields, set to the new
scene name and timestamp; every other field previously present is dropped. -/
theorem c3_save_scene_atomic_minimal (store : SceneStore) (name ts : String)
    (h : pyStrip name ≠ "") :
    save_current_scene_to_storage store name ts =
      .ok ⟨some (.valid ⟨some (pyStrip name), some ts, []⟩), none⟩ := by
  unfold save_current_scene_to_storage
  rw [if_neg h]
  cases hm : store.mainFile with
  | none => rfl
  | some content => cases content <;> rfl

/-- Witness for the amended C3 at a concrete store and scene name. -/
theorem c3_save_scene_atomic_minimal_witness :
    pyStrip " SceneB " ≠ "" ∧
    save_current_scene_to_storage
        ⟨some (.valid ⟨some "A", some "t0", [("k", "v")]⟩), none⟩ " SceneB " "t1" =
      .ok ⟨some (.valid ⟨some "SceneB", some "t1", []⟩), none⟩ :=
  ⟨by decide,
    (c3_save_scene_atomic_minimal
      ⟨some (.valid ⟨some "A", some "t0", [("k", "v")]⟩), none⟩ " SceneB " "t1"
      (by decide)).trans (by rfl)⟩

/-- A file classified as HTML has a nonempty name. -/
theorem is_html_file_ne_empty {m : String} (h : is_html_file m = true) : m ≠ "" := by
  intro hm
  subst hm
  exact absurd h (by decide)

/-- A file classified as HTML is not classified as a video, since the HTML
and video extension sets are disjoint. -/
theorem is_html_file_not_video {m : String} (h : is_html_file m = true) :
    is_video_file m = false := by
  have hmem : pyLower (pySuffix m) ∈ HTML_EXTENSIONS := by
    simpa [is_html_file] using h
  have hcases : pyLower (pySuffix m) = ".html" ∨ pyLower (pySuffix m) = ".htm" := by
    simpa [HTML_EXTENSIONS] using hmem
  unfold is_video_file
  rcases hcases with h2 | h2 <;> rw [h2] <;> decide

/-- C4: a video_control request issued while the stored current media is an
HTML animation yields exactly one error message, unicast to the requesting
connection, and no broadcast of any kind; the stored state is unchanged. -/
theorem c4_video_control_on_animation (rec : StateRec) (m a : String) (v : Option Int)
    (hcur : rec.current_animation = some (some m))
    (hhtml : is_html_file m = true) (ha : a ≠ "") :
    handle_video_control (.valid rec) (some a) v =
      (.valid rec, [.unicast (.errorMsg "Current media is not a video file" none)]) := by
  have hv := is_html_file_not_video hhtml
  have hne := is_html_file_ne_empty hhtml
  simp [handle_video_control, ha, load_state, hcur, Option.join, hne, hv]

/-- Witness for C4: a seek request while anim1.html is displayed. -/
theorem c4_video_control_on_animation_witness :
    is_html_file "anim1.html" = true ∧
    handle_video_control (.valid ⟨some (some "anim1.html")⟩) (some "seek") (some 30) =
      (.valid ⟨some (some "anim1.html")⟩,
       [.unicast (.errorMsg "Current media is not a video file" none)]) :=
  ⟨by decide,
    c4_video_control_on_animation ⟨some (some "anim1.html")⟩ "anim1.html" "seek"
      (some 30) rfl (by decide) (by decide)⟩

/-- C5: the reconnection policy of the OBS client. While the client should be
connected and is not: every call with the attempt counter below the maximum
schedules the next attempt with delay min 30 (2 to the attempt number); that
delay is strictly increasing while below the thirty-second ceiling and never
exceeds the ceiling; once the counter reaches the maximum the client enters
the five-minute cooldown, resets the counter and schedules attempt one
again; and no call ever gives up permanently. -/
theorem c5_reconnect_backoff_policy :
    (∀ a, a < max_reconnect_attempts →
      schedule_reconnect true false a = .attempt (a + 1) (reconnect_delay (a + 1))) ∧
    (∀ n, 1 ≤ n → reconnect_delay n < 30 → reconnect_delay n < reconnect_delay (n + 1)) ∧
    (∀ n, reconnect_delay n ≤ 30) ∧
    (∀ a, max_reconnect_attempts ≤ a →
      schedule_reconnect true false a = .cooldownThenRetry 300 1 (reconnect_delay 1)) ∧
    (∀ a c, schedule_reconnect true false a ≠ .cooldownThenIdle c) := by
  refine ⟨fun a ha => ?_, fun n h1 h30 => ?_, fun n => ?_, fun a ha => ?_, fun a c => ?_⟩
  · simp [schedule_reconnect, ha]
  · have hpow : 2 ^ n < 30 := by
      unfold reconnect_delay at h30
      omega
    have hn4 : n ≤ 4 := by
      by_contra hgt
      push_neg at hgt
      have : 2 ^ 5 ≤ 2 ^ n := Nat.pow_le_pow_right (by norm_num) hgt
      omega
    interval_cases n <;> decide
  · exact Nat.min_le_left _ _
  · have : ¬ a < max_reconnect_attempts := Nat.not_lt.mpr ha
    simp [schedule_reconnect, this]
  · unfold schedule_reconnect
    split
    · simp
    · simp

/-- Witness for C5 at concrete attempt counters: attempt four is scheduled
with a sixteen-second delay, the delay grows from attempt three to attempt
four, stays within the ceiling, and the twenty-first call enters cooldown
and restarts at attempt one with the base delay. -/
theorem c5_reconnect_backoff_policy_witness :
    schedule_reconnect true false 3 = .attempt 4 16 ∧
    reconnect_delay 3 < reconnect_delay 4 ∧
    reconnect_delay 7 ≤ 30 ∧
    schedule_reconnect true false 20 = .cooldownThenRetry 300 1 2 :=
  ⟨(c5_reconnect_backoff_policy.1 3 (by decide)).trans (by decide),
   c5_reconnect_backoff_policy.2.1 3 (by decide) (by decide),
   c5_reconnect_backoff_policy.2.2.1 7,
   (c5_reconnect_backoff_policy.2.2.2.1 20 (by decide)).trans (by decide)⟩

/-- C6: a permanent, non-forced disconnect is refused when the settings file
reports the integration enabled or cannot be read: both reconnection intent
flags keep the values they had before the call. -/
theorem c6_permanent_disconnect_refused (st : ClientFlags) (settings : SettingsRead)
    (h : settings = .found true ∨ settings = .unreadable) :
    (disconnect settings true false st).should_be_connected = st.should_be_connected ∧
    (disconnect settings true false st).auto_reconnect_enabled = st.auto_reconnect_enabled := by
  rcases h with rfl | rfl <;> simp [disconnect]

/-- Witness for C6 with the settings file reporting enabled. -/
theorem c6_permanent_disconnect_refused_witness :
    (disconnect (.found true) true false ⟨true, true, true⟩).should_be_connected =
      (⟨true, true, true⟩ : ClientFlags).should_be_connected ∧
    (disconnect (.found true) true false ⟨true, true, true⟩).auto_reconnect_enabled =
      (⟨true, true, true⟩ : ClientFlags).auto_reconnect_enabled :=
  c6_permanent_disconnect_refused ⟨true, true, true⟩ (.found true) (Or.inl rfl)

/-- C7: a scene_change request whose scene name lowercases to gaming, with no
inline mapping, is exactly the trigger_media request for anim1.html: same
resulting stored state and same emitted messages. -/
theorem c7_scene_change_gaming (c : Catalog) (st : StoredState) (s : String)
    (h : pyLower s = "gaming") :
    handle_scene_change c st (some s) none =
      handle_trigger_animation c st (some "anim1.html") := by
  simp [handle_scene_change, h, pyDictGet, default_mapping]

/-- Witness for C7 with the capitalised scene name Gaming at a concrete
catalog and state. -/
theorem c7_scene_change_gaming_witness :
    pyLower "Gaming" = "gaming" ∧
    handle_scene_change ⟨["anim1.html", "anim2.html"], []⟩
        (.valid ⟨some (some "anim2.html")⟩) (some "Gaming") none =
      handle_trigger_animation ⟨["anim1.html", "anim2.html"], []⟩
        (.valid ⟨some (some "anim2.html")⟩) (some "anim1.html") :=
  ⟨by decide,
    c7_scene_change_gaming ⟨["anim1.html", "anim2.html"], []⟩
      (.valid ⟨some (some "anim2.html")⟩) "Gaming" (by decide)⟩

/-- C8: saving a state record and loading it back returns the same record,
and loading with the state file absent or unreadable yields the record whose
current media is the fixed fallback identifier anim1.html. -/
theorem c8_state_roundtrip_and_default :
    (∀ rec : StateRec, (load_state (save_state rec)).1 = rec) ∧
    (load_state .absent).1 = ⟨some (some "anim1.html")⟩ ∧
    (load_state .corrupt).1 = ⟨some (some "anim1.html")⟩ :=
  ⟨fun _ => rfl, rfl, rfl⟩

/-- C9: a video_control request with a nonempty action, issued while the
stored current media is null or the key is absent, is not rejected: the
action and value are broadcast to every connection as the playback-control
message, with no unicast error. -/
theorem c9_video_control_no_media (rec : StateRec) (a : String) (v : Option Int)
    (hcur : rec.current_animation = none ∨ rec.current_animation = some none)
    (ha : a ≠ "") :
    handle_video_control (.valid rec) (some a) v =
      (.valid rec, [.broadcast (.videoControlMsg a v ("Video control: " ++ a))]) := by
  rcases hcur with h | h <;> simp [handle_video_control, ha, load_state, h, Option.join]

/-- Witness for C9: a play request while the stored current media is null. -/
theorem c9_video_control_no_media_witness :
    ("play" : String) ≠ "" ∧
    handle_video_control (.valid ⟨some none⟩) (some "play") none =
      (.valid ⟨some none⟩,
       [.broadcast (.videoControlMsg "play" none "Video control: play")]) :=
  ⟨by decide, c9_video_control_no_media ⟨some none⟩ "play" none (Or.inr rfl) (by decide)⟩

/-- Sorting preserves membership. -/
theorem mem_pysorted {x : String} {l : List String} : x ∈ pysorted l ↔ x ∈ l :=
  (List.perm_insertionSort pyStrLe l).mem_iff

/-- A name produced by the per-extension glob loop is a name of the
directory. -/
theorem mem_globEachExt {x : String} {dir : List String} :
    ∀ {exts : List String}, x ∈ globEachExt dir exts → x ∈ dir := by
  intro exts
  induction exts with
  | nil => intro h; exact absurd h (List.not_mem_nil x)
  | cons e rest ih =>
    intro h
    rcases List.mem_append.1 h with h1 | h2
    · exact (List.mem_filter.1 h1).1
    · exact ih h2

/-- Every member of the full media listing exists in one of the two
directories, so find_media_file succeeds on it. -/
theorem find_media_file_of_mem_all {c : Catalog} {x : String}
    (hx : x ∈ get_all_media_files c) : (find_media_file c x).isSome = true := by
  have hx2 : x ∈ get_animation_files c ++ get_video_files c :=
    mem_pysorted.1 hx
  rcases List.mem_append.1 hx2 with h1 | h2
  · have : x ∈ c.animationsDir := (List.mem_filter.1 (mem_pysorted.1 h1)).1
    simp [find_media_file, this]
  · have hv : x ∈ c.videosDir := mem_globEachExt (mem_pysorted.1 h2)
    by_cases ha : x ∈ c.animationsDir <;> simp [find_media_file, ha, hv]

/-- C10: when the persisted current media names a file no longer present in
either directory and at least one media file is available, the display-read
route replaces the persisted current media with the head of the full media
listing - the lexically least available name - saves that record, and serves
that file with the media type it resolves to. -/
theorem c10_index_fallback (c : Catalog) (rec : StateRec) (m : String)
    (hcur : rec.current_animation = some (some m))
    (hmiss : find_media_file c m = none)
    (hne : get_all_media_files c ≠ []) :
    ∃ x xs,
      get_all_media_files c = x :: xs ∧
      (find_media_file c x).isSome = true ∧
      index c (.valid rec) =
        (save_state { rec with current_animation := some (some x) },
         .served x (find_media_file c x)) ∧
      ∀ y ∈ get_all_media_files c, pyStrLe x y := by
  obtain ⟨x, xs, hlist⟩ : ∃ x xs, get_all_media_files c = x :: xs := by
    cases hl : get_all_media_files c with
    | nil => exact absurd hl hne
    | cons a l => exact ⟨a, l, rfl⟩
  have hxmem : x ∈ get_all_media_files c := by
    rw [hlist]; exact List.mem_cons_self x xs
  have hsorted : List.Sorted pyStrLe (get_all_media_files c) :=
    List.sorted_insertionSort pyStrLe _
  refine ⟨x, xs, hlist, find_media_file_of_mem_all hxmem, ?_, ?_⟩
  · simp [index, load_state, hcur, index_serve, hmiss, hlist]
  · intro y hy
    rw [hlist] at hy hsorted
    rcases List.mem_cons.1 hy with rfl | hmem
    · exact le_refl y.data
    · exact List.rel_of_sorted_cons hsorted y hmem

/-- Witness for C10: the stored gone.html is missing from a catalog holding
b.html and a.mp4, so the route persists and serves a.mp4, the lexically
least name. -/
theorem c10_index_fallback_witness :
    find_media_file ⟨["b.html"], ["a.mp4"]⟩ "gone.html" = none ∧
    (∃ x xs,
      get_all_media_files ⟨["b.html"], ["a.mp4"]⟩ = x :: xs ∧
      (find_media_file ⟨["b.html"], ["a.mp4"]⟩ x).isSome = true ∧
      index ⟨["b.html"], ["a.mp4"]⟩ (.valid ⟨some (some "gone.html")⟩) =
        (save_state ⟨some (some x)⟩,
         .served x (find_media_file ⟨["b.html"], ["a.mp4"]⟩ x)) ∧
      ∀ y ∈ get_all_media_files ⟨["b.html"], ["a.mp4"]⟩, pyStrLe x y) :=
  ⟨by decide,
    c10_index_fallback ⟨["b.html"], ["a.mp4"]⟩ ⟨some (some "gone.html")⟩ "gone.html"
      rfl (by decide) (by decide)⟩
